import Mathlib

/-!
Shallow embedding of the graph-ingestion and indexing pipeline of the
`opencitations-client` repository (`src/opencitations_client/download.py`,
`cache.py`, `db.py`, `models.py`), together with theorems settling the
specification claims about it.

Python strings are modelled as Lean `String`, Python dicts as insertion-ordered
association lists (`Dict`) whose lookup is last-write-wins, the file system as
an association list from file name to the rows of the (decompressed,
tab-separated) file, and raised exceptions as `Except` errors.  The raw
citation archives are modelled by the list of first-column values of their
rows, and the raw metadata archive by the list of `id`-column values of its
records, since those are the only fields the embedded code reads.
-/

namespace OC

/-- A row of a tab-separated artifact file, as produced by the csv reader. -/
abbrev Row := List String

/-- A Python dict of strings, as the ordered list of assignments made to it;
later assignments shadow earlier ones (`dictGet`). -/
abbrev Dict := List (String × String)

/-- `d.get(k)`: the value of the last assignment to `k`, if any. -/
def dictGet : Dict → String → Option String
  | [], _ => none
  | (a, b) :: rest, k =>
    match dictGet rest k with
    | some v => some v
    | none => if a = k then some b else none

/-- `lst.lstrip(cs)` on char lists: drop leading characters that are in `cs`
(Python `str.lstrip` treats its argument as a character set). -/
def dropWhileMem (cs : List Char) : List Char → List Char
  | [] => []
  | c :: rest => if c ∈ cs then dropWhileMem cs rest else c :: rest

/-- Split a char list at the first occurrence of `sep` (excluded); `none` when
`sep` does not occur. -/
def breakAt (sep : Char) : List Char → Option (List Char × List Char)
  | [] => none
  | c :: rest =>
    if c = sep then some ([], rest)
    else
      match breakAt sep rest with
      | some (l, r) => some (c :: l, r)
      | none => none

/-- `s.partition(sep)`, projected to the (before, after) components: when `sep`
does not occur, Python returns `(s, "", "")`. -/
def pyPartition (s : String) (sep : Char) : String × String :=
  match breakAt sep s.data with
  | some (l, r) => (⟨l⟩, ⟨r⟩)
  | none => (s, "")

/-- `s.lstrip(cs)` with `cs` read as a character set. -/
def pyLstrip (s : String) (cs : List Char) : String :=
  ⟨dropWhileMem cs s.data⟩

/-- Accumulator-based worker for `pySplitWs`. -/
def wordsAux (acc : List Char) : List Char → List (List Char)
  | [] => if acc.isEmpty then [] else [acc.reverse]
  | c :: rest =>
    if c.isWhitespace then
      if acc.isEmpty then wordsAux [] rest else acc.reverse :: wordsAux [] rest
    else wordsAux (c :: acc) rest

/-- `s.split()` with no argument: split on whitespace runs, no empty words. -/
def pySplitWs (s : String) : List String :=
  (wordsAux [] s.data).map (fun l => ⟨l⟩)

/-- A two-column row as a pair; `none` for any other shape. -/
def rowPair : Row → Option (String × String)
  | [a, b] => some (a, b)
  | _ => none

/-- All rows as pairs, or `none` as soon as one is not a pair: the shape
check `dict(file)` performs while consuming the reader. -/
def rowsPairs : List Row → Option (List (String × String))
  | [] => some []
  | r :: rest =>
    match rowPair r, rowsPairs rest with
    | some p, some ps => some (p :: ps)
    | _, _ => none

/-- The exceptions the embedded code can raise.  The spec names
`CorruptArtifactError` for `emptyArtifact`/`malformedRow` and
`UnsupportedVocabularyError` for `invalidVocab`/`lookupNotImplemented`. -/
inductive PyErr where
  /-- `next(file)` on an empty artifact raises `StopIteration`. -/
  | emptyArtifact
  /-- `dict(file)` over a row that is not a two-column pair raises. -/
  | malformedRow
  /-- `handle_input` raises `ValueError` on an unknown vocabulary. -/
  | invalidVocab (p : String)
  /-- `_get_cache` raises `NotImplementedError` on an unknown vocabulary. -/
  | lookupNotImplemented (p : String)
  /-- `return_type="citation"` raises `NotImplementedError`. -/
  | citationNotImplemented
  /-- opening a graph cache at a location where none was built fails. -/
  | missingIndex
deriving DecidableEq, Repr

/-- The state the embedded code reads and writes: the persisted artifact files,
the (out-of-scope, externally supplied) raw archives, the persisted graph
indexes per vocabulary, and the `lru_cache` memo slots of `cache.py` and
`db.py`.  A graph index is modelled by the edge list it was built from. -/
structure PyState where
  /-- artifact file name to rows; newest write first. -/
  files : List (String × List Row)
  /-- the `id` column of each record of the raw metadata archive. -/
  metadataBundles : List String
  /-- the first column of each row of the raw citation archives. -/
  rawCitations : List String
  /-- persisted graph index at the pmid on-disk location (`none` = absent). -/
  pmidDb : Option (List (String × String))
  /-- persisted graph index at the omid on-disk location. -/
  omidDb : Option (List (String × String))
  /-- persisted graph index at the doi on-disk location. -/
  doiDb : Option (List (String × String))
  /-- `cache._get_pubmed_cache` memo. -/
  pmidMemo : Option (List (String × String))
  /-- `cache._get_omid_cache` memo. -/
  omidMemo : Option (List (String × String))
  /-- `cache._get_doi_cache` memo. -/
  doiMemo : Option (List (String × String))
  /-- `db._get_pubmed_cache` memo. -/
  dbPmidMemo : Option (List (String × String))
  /-- `db._get_omid_cache` memo. -/
  dbOmidMemo : Option (List (String × String))
  /-- `db._get_doi_cache` memo. -/
  dbDoiMemo : Option (List (String × String))
deriving DecidableEq, Repr

/-- Read an artifact file: `path.is_file()` is `isSome` of this. -/
def fileRead (fs : List (String × List Row)) (n : String) : Option (List Row) :=
  List.lookup n fs

/-- (Over)write an artifact file. -/
def fileWrite (fs : List (String × List Row)) (n : String) (rows : List Row) :
    List (String × List Row) :=
  (n, rows) :: fs

/-- `download._iter_omid_to_external_identifier`, per bundle: the `references`
dict built from the whitespace-separated curies of the `id` field; curies with
an empty identifier after `partition(":")` are skipped per-token. -/
def bundleReferences (curies : String) : Dict :=
  (pySplitWs curies).filterMap (fun curie =>
    let pi := pyPartition curie ':'
    if pi.2 = "" then none else some (pi.1, pi.2))

/-- `download._iter_omid_to_external_identifier(prefix)` over the metadata
bundles: skip bundles without an `omid` entry (logged), and yield
`(omid, external)` when the `vocab` entry is present and truthy. -/
def iterOmidToExternalIdentifier (vocab : String) (bundles : List String) :
    List (String × String) :=
  bundles.filterMap (fun curies =>
    let refs := bundleReferences curies
    match dictGet refs "omid" with
    | none => none
    | some omid =>
      match dictGet refs vocab with
      | none => none
      | some ext => if ext = "" then none else some (omid, ext))

/-- The on-disk name of the identifier-map artifact for `vocab`. -/
def mapArtifactName (vocab : String) : String :=
  "omid_to_" ++ vocab ++ ".tsv.gz"

/-- The build branch of `download._get_omid_to_external`: scan the metadata
bundles, write the header row and one row per pair, and return the pairs as
the in-memory dict. -/
def buildOmidMap (vocab : String) (s : PyState) : Except PyErr Dict × PyState :=
  let pairs := iterOmidToExternalIdentifier vocab s.metadataBundles
  let rows : List Row := ["omid", vocab] :: pairs.map (fun p => [p.1, p.2])
  (.ok pairs, { s with files := fileWrite s.files (mapArtifactName vocab) rows })

/-- The load branch of `download._get_omid_to_external`: `next(file)` on the
header (raises on an empty file), then `dict(file)` over the remaining rows
(raises on a row that is not a pair). -/
def loadOmidMap (rows : List Row) (s : PyState) : Except PyErr Dict × PyState :=
  match rows with
  | [] => (.error .emptyArtifact, s)
  | _header :: rest =>
    match rowsPairs rest with
    | some m => (.ok m, s)
    | none => (.error .malformedRow, s)

/-- `download._get_omid_to_external(prefix, force_process)`: load the persisted
artifact when present and not forced, otherwise build and persist it. -/
def getOmidToExternal (vocab : String) (forceProcess : Bool) (s : PyState) :
    Except PyErr Dict × PyState :=
  match fileRead s.files (mapArtifactName vocab) with
  | some rows => if forceProcess then buildOmidMap vocab s else loadOmidMap rows s
  | none => buildOmidMap vocab s

/-- `download.get_omid_to_doi`: note the source passes `"pmid"`, not `"doi"`,
to `_get_omid_to_external`. -/
def getOmidToDoi (forceProcess : Bool) (s : PyState) : Except PyErr Dict × PyState :=
  getOmidToExternal "pmid" forceProcess s

/-- `download.get_omid_to_pubmed`. -/
def getOmidToPubmed (forceProcess : Bool) (s : PyState) : Except PyErr Dict × PyState :=
  getOmidToExternal "pmid" forceProcess s

/-- `download.iter_omid_to_doi`: the DOI scan of the metadata bundles. -/
def iterOmidToDoi (bundles : List String) : List (String × String) :=
  iterOmidToExternalIdentifier "doi" bundles

/-- The characters of the string `"oci:"`, the argument of the `lstrip` call
in the citation-row parse. -/
def ociLstripChars : List Char := ['o', 'c', 'i', ':']

/-- `citation.lstrip("oci:").partition("-")` projected to (left, right). -/
def parseOciRow (citation : String) : String × String :=
  pyPartition (pyLstrip citation ociLstripChars) '-'

/-- The native edge a raw citation row denotes: `("br/"+left, "br/"+right)`. -/
def nativeEdgeOfRow (citation : String) : String × String :=
  let lr := parseOciRow citation
  ("br/" ++ lr.1, "br/" ++ lr.2)

/-- The on-disk name of the translated edge-stream artifact for `vocab`. -/
def citArtifactName (vocab : String) : String :=
  vocab ++ "_citations.tsv.gz"

/-- The per-row body of the translation loop of
`download._get_external_citations`: parse the row, look both endpoints up in
the map, and emit the translated edge only when both lookups are truthy
(Python `if source_external_id and target_external_id`: `None` and `""` are
both falsy). -/
def translateRow (m : Dict) (citation : String) : Option (String × String) :=
  let lr := parseOciRow citation
  match dictGet m ("br/" ++ lr.1), dictGet m ("br/" ++ lr.2) with
  | some src, some tgt => if src = "" ∨ tgt = "" then none else some (src, tgt)
  | _, _ => none

/-- The build branch of `download._get_external_citations`: obtain the
identifier map, then stream the raw citation rows, translating and persisting
the surviving edges in order. -/
def buildExternalCitations (vocab : String) (forceProcess : Bool) (s : PyState) :
    Except PyErr (List (String × String)) × PyState :=
  match getOmidToExternal vocab forceProcess s with
  | (.error e, s₁) => (.error e, s₁)
  | (.ok m, s₁) =>
    let pairs := s₁.rawCitations.filterMap (translateRow m)
    (.ok pairs,
      { s₁ with
        files := fileWrite s₁.files (citArtifactName vocab)
          (pairs.map (fun p => [p.1, p.2])) })

/-- `download._get_external_citations(prefix, force_process)`: stream the
persisted rows back (cast to edges) when the artifact exists and not forced,
otherwise translate and persist. -/
def getExternalCitations (vocab : String) (forceProcess : Bool) (s : PyState) :
    Except PyErr (List (String × String)) × PyState :=
  match fileRead s.files (citArtifactName vocab) with
  | some rows =>
    if forceProcess then buildExternalCitations vocab forceProcess s
    else (.ok (rows.filterMap rowPair), s)
  | none => buildExternalCitations vocab forceProcess s

/-- `download.iter_pubmed_citations`. -/
def iterPubmedCitations (forceProcess : Bool) (s : PyState) :
    Except PyErr (List (String × String)) × PyState :=
  getExternalCitations "pmid" forceProcess s

/-- `download.iter_doi_citations`. -/
def iterDoiCitations (forceProcess : Bool) (s : PyState) :
    Except PyErr (List (String × String)) × PyState :=
  getExternalCitations "doi" forceProcess s

/-- `download.iter_omid_citations(force_process)`: the native edge stream;
every parsed edge is persisted and yielded, no translation. -/
def iterOmidCitations (forceProcess : Bool) (s : PyState) :
    List (String × String) × PyState :=
  match fileRead s.files "omid_citations.tsv.gz" with
  | some rows =>
    if forceProcess then
      let pairs := s.rawCitations.map nativeEdgeOfRow
      (pairs,
        { s with
          files := fileWrite s.files "omid_citations.tsv.gz"
            (pairs.map (fun p => [p.1, p.2])) })
    else (rows.filterMap rowPair, s)
  | none =>
    let pairs := s.rawCitations.map nativeEdgeOfRow
    (pairs,
      { s with
        files := fileWrite s.files "omid_citations.tsv.gz"
          (pairs.map (fun p => [p.1, p.2])) })

/-- `curies.Reference`: a (vocabulary, local-value) pair.  The field is named
`prefix` in the source; `prefix` is reserved in Lean, so it is `pfx` here. -/
structure Reference where
  pfx : String
  identifier : String
deriving DecidableEq, Repr

/-- `models.CitationReturnType`. -/
inductive ReturnType where
  | citation
  | reference
  | str
deriving DecidableEq, Repr

/-- The result of a citation query: local identifiers or references. -/
inductive CiteResult where
  | strs (ids : List String)
  | refs (rs : List Reference)
deriving DecidableEq, Repr

/-- `json_api_client.CITATION_PREFIXES`, the accepted input vocabularies. -/
def CITATION_PREFIXES : List String := ["doi", "pubmed", "omid"]

/-- `models.handle_input`, restricted to `Reference` inputs (curie-string
parsing is done by the out-of-scope `curies` library): reject a vocabulary
outside `CITATION_PREFIXES` with `ValueError`, and canonicalize `pubmed` to
the internal, non-standard `pmid`. -/
def handleInput (r : Reference) : Except PyErr Reference :=
  if r.pfx ∈ CITATION_PREFIXES then
    if r.pfx = "pubmed" then .ok ⟨"pmid", r.identifier⟩ else .ok r
  else .error (.invalidVocab r.pfx)

/-- An in-memory graph cache handle, modelled by its edge list. -/
abbrev GraphCache := List (String × String)

/-- `GraphCache.out_edges(id)`: targets of edges with the given source, in
edge order; empty when absent. -/
def outEdges (g : GraphCache) (i : String) : List String :=
  (g.filter (fun e => e.1 == i)).map (fun e => e.2)

/-- `GraphCache.in_edges(id)`: sources of edges with the given target. -/
def inEdges (g : GraphCache) (i : String) : List String :=
  (g.filter (fun e => e.2 == i)).map (fun e => e.1)

/-- `cache._get_pubmed_cache`: memoized; build from `iter_pubmed_citations`
at the pmid location when it does not exist, else open it. -/
def getPubmedCache (s : PyState) : Except PyErr GraphCache × PyState :=
  match s.pmidMemo with
  | some c => (.ok c, s)
  | none =>
    match s.pmidDb with
    | none =>
      match iterPubmedCitations false s with
      | (.error e, s₁) => (.error e, s₁)
      | (.ok edges, s₁) =>
        (.ok edges, { s₁ with pmidDb := some edges, pmidMemo := some edges })
    | some stored => (.ok stored, { s with pmidMemo := some stored })

/-- `cache._get_omid_cache`: build from `iter_omid_citations` at the omid
location when it does not exist, else open it. -/
def getOmidCache (s : PyState) : Except PyErr GraphCache × PyState :=
  match s.omidMemo with
  | some c => (.ok c, s)
  | none =>
    match s.omidDb with
    | none =>
      let es := iterOmidCitations false s
      (.ok es.1, { es.2 with omidDb := some es.1, omidMemo := some es.1 })
    | some stored => (.ok stored, { s with omidMemo := some stored })

/-- `cache._get_doi_cache`: build from `iter_doi_citations` at the doi
location when it does not exist, else open it. -/
def getDoiCache (s : PyState) : Except PyErr GraphCache × PyState :=
  match s.doiMemo with
  | some c => (.ok c, s)
  | none =>
    match s.doiDb with
    | none =>
      match iterDoiCitations false s with
      | (.error e, s₁) => (.error e, s₁)
      | (.ok edges, s₁) =>
        (.ok edges, { s₁ with doiDb := some edges, doiMemo := some edges })
    | some stored => (.ok stored, { s with doiMemo := some stored })

/-- `cache._get_cache(prefix)`: dispatch by vocabulary name; `pmid`/`pubmed`
to the pmid cache, `omid` and `doi` each to their own cache, anything else
raises `NotImplementedError`. -/
def getCache (p : String) (s : PyState) : Except PyErr GraphCache × PyState :=
  match p with
  | "pmid" | "pubmed" => getPubmedCache s
  | "omid" => getOmidCache s
  | "doi" => getDoiCache s
  | _ => (.error (.lookupNotImplemented p), s)

/-- `cache.get_outgoing_citations(reference, return_type)`: the
`return_type="citation"` check comes first, then input validation, then cache
dispatch and the adjacency query. -/
def getOutgoingCitations (r : Reference) (rt : ReturnType) (s : PyState) :
    Except PyErr CiteResult × PyState :=
  if rt = .citation then (.error .citationNotImplemented, s)
  else
    match handleInput r with
    | .error e => (.error e, s)
    | .ok rr =>
      match getCache rr.pfx s with
      | (.error e, s₁) => (.error e, s₁)
      | (.ok c, s₁) =>
        let ids := outEdges c rr.identifier
        if rt = .str then (.ok (.strs ids), s₁)
        else (.ok (.refs (ids.map (fun i => ⟨rr.pfx, i⟩))), s₁)

/-- `cache.get_incoming_citations(reference, return_type)`. -/
def getIncomingCitations (r : Reference) (rt : ReturnType) (s : PyState) :
    Except PyErr CiteResult × PyState :=
  if rt = .citation then (.error .citationNotImplemented, s)
  else
    match handleInput r with
    | .error e => (.error e, s)
    | .ok rr =>
      match getCache rr.pfx s with
      | (.error e, s₁) => (.error e, s₁)
      | (.ok c, s₁) =>
        let ids := inEdges c rr.identifier
        if rt = .str then (.ok (.strs ids), s₁)
        else (.ok (.refs (ids.map (fun i => ⟨rr.pfx, i⟩))), s₁)

/-- `db._get_pubmed_cache`: as the `cache.py` one, with its own memo slot. -/
def dbGetPubmedCache (s : PyState) : Except PyErr GraphCache × PyState :=
  match s.dbPmidMemo with
  | some c => (.ok c, s)
  | none =>
    match s.pmidDb with
    | none =>
      match iterPubmedCitations false s with
      | (.error e, s₁) => (.error e, s₁)
      | (.ok edges, s₁) =>
        (.ok edges, { s₁ with pmidDb := some edges, dbPmidMemo := some edges })
    | some stored => (.ok stored, { s with dbPmidMemo := some stored })

/-- `db._get_omid_cache`. -/
def dbGetOmidCache (s : PyState) : Except PyErr GraphCache × PyState :=
  match s.dbOmidMemo with
  | some c => (.ok c, s)
  | none =>
    match s.omidDb with
    | none =>
      let es := iterOmidCitations false s
      (.ok es.1, { es.2 with omidDb := some es.1, dbOmidMemo := some es.1 })
    | some stored => (.ok stored, { s with dbOmidMemo := some stored })

/-- `db._get_doi_cache`: the source tests `omid_cache_paths.exists()` (not the
doi paths) and, when absent, builds the index at the doi location from
`iter_omid_citations` (the native edge stream); when the omid location exists
it opens the doi location, which fails if nothing was built there. -/
def dbGetDoiCache (s : PyState) : Except PyErr GraphCache × PyState :=
  match s.dbDoiMemo with
  | some c => (.ok c, s)
  | none =>
    match s.omidDb with
    | none =>
      let es := iterOmidCitations false s
      (.ok es.1, { es.2 with doiDb := some es.1, dbDoiMemo := some es.1 })
    | some _ =>
      match s.doiDb with
      | some stored => (.ok stored, { s with dbDoiMemo := some stored })
      | none => (.error .missingIndex, s)

/-- `db.get_outgoing_citations(reference)`: dispatch by the reference's
vocabulary; the source's `"doi"` arm calls `_get_omid_cache()`. -/
def dbGetOutgoingCitations (r : Reference) (s : PyState) :
    Except PyErr (List String) × PyState :=
  match r.pfx with
  | "pmid" | "pubmed" =>
    match dbGetPubmedCache s with
    | (.error e, s₁) => (.error e, s₁)
    | (.ok c, s₁) => (.ok (outEdges c r.identifier), s₁)
  | "omid" =>
    match dbGetOmidCache s with
    | (.error e, s₁) => (.error e, s₁)
    | (.ok c, s₁) => (.ok (outEdges c r.identifier), s₁)
  | "doi" =>
    match dbGetOmidCache s with
    | (.error e, s₁) => (.error e, s₁)
    | (.ok c, s₁) => (.ok (outEdges c r.identifier), s₁)
  | p => (.error (.lookupNotImplemented p), s)

/-- `db.get_incoming_citations(reference)`: the `"doi"` arm likewise calls
`_get_omid_cache()`. -/
def dbGetIncomingCitations (r : Reference) (s : PyState) :
    Except PyErr (List String) × PyState :=
  match r.pfx with
  | "pmid" | "pubmed" =>
    match dbGetPubmedCache s with
    | (.error e, s₁) => (.error e, s₁)
    | (.ok c, s₁) => (.ok (inEdges c r.identifier), s₁)
  | "omid" =>
    match dbGetOmidCache s with
    | (.error e, s₁) => (.error e, s₁)
    | (.ok c, s₁) => (.ok (inEdges c r.identifier), s₁)
  | "doi" =>
    match dbGetOmidCache s with
    | (.error e, s₁) => (.error e, s₁)
    | (.ok c, s₁) => (.ok (inEdges c r.identifier), s₁)
  | p => (.error (.lookupNotImplemented p), s)

deriving instance DecidableEq for Except

/-- A state with no artifacts, no archives and empty memos. -/
def emptyState : PyState :=
  ⟨[], [], [], none, none, none, none, none, none, none, none, none⟩

/-- The spec's comprehension for the translated edge stream, following the
spec's words: `{(M[a], M[b]) : (a,b) in E, a in S, b in S}` in the order of
`E`, where `S` is the domain of the map. -/
def specTranslatedEdges (m : Dict) (edges : List (String × String)) :
    List (String × String) :=
  edges.filterMap (fun e =>
    match dictGet m e.1, dictGet m e.2 with
    | some x, some y => some (x, y)
    | _, _ => none)

/-- Persisted omid and doi indexes with different contents at `"x"`. -/
def c1State : PyState :=
  { emptyState with omidDb := some [("x", "OM1")], doiDb := some [("x", "D1")] }

/-- No index built yet; one raw citation row. -/
def c1BuildState : PyState := { emptyState with rawCitations := ["oci:1-2"] }

/-- The omid location exists but nothing was ever built at the doi one. -/
def c1GateState : PyState := { emptyState with omidDb := some [("x", "OM1")] }

/-- One metadata bundle carrying distinct doi and pmid identifiers. -/
def c2State : PyState :=
  { emptyState with metadataBundles := ["omid:br/1 doi:10.1/x pmid:999"] }

/-- A doi identifier map binding `br/1` to the empty string. -/
def c3CexState : PyState :=
  { emptyState with
    files := [(mapArtifactName "doi", [["omid", "doi"], ["br/1", ""], ["br/2", "y"]])],
    rawCitations := ["1-2"] }

/-- The doi identifier map used by the C3 witness. -/
def c3WitMap : Dict := [("br/1", "x"), ("br/2", "y")]

/-- A doi identifier map covering `br/1` and `br/2` and three raw rows, one
with an unmapped endpoint. -/
def c3WitState : PyState :=
  { emptyState with
    files := [(mapArtifactName "doi",
      (["omid", "doi"] : Row) :: c3WitMap.map (fun p => [p.1, p.2]))],
    rawCitations := ["1-2", "1-3", "2-1"] }

/-- One raw citation row whose LEFT local value begins with `c`. -/
def c4State : PyState := { emptyState with rawCitations := ["oci:c1-2"] }

/-- A state ready for a first extraction pass: map artifact present, no edge
artifact, two raw rows. -/
def c5State : PyState :=
  { emptyState with
    files := [(mapArtifactName "doi",
      [["omid", "doi"], ["br/1", "x"], ["br/2", "y"]])],
    rawCitations := ["1-2", "2-1"] }

/-- The state after the first extraction pass of the C5 witness. -/
def c5StateAfter : PyState := (getExternalCitations "doi" false c5State).2

/-- The state after the first native-edge pass of the C5 witness. -/
def c5StateAfterOmid : PyState := (iterOmidCitations false c5State).2

/-- Two bundles giving the same native identifier different pmid values. -/
def c6State : PyState :=
  { emptyState with
    metadataBundles := ["omid:br/1 pmid:11", "omid:br/1 pmid:22", "omid:br/2 pmid:33"] }

/-- The map pairs the bundles of `c6State` produce, in scan order. -/
def c6Pairs : List (String × String) :=
  iterOmidToExternalIdentifier "pmid" c6State.metadataBundles

/-- The state after the C6 build pass persisted the map artifact. -/
def c6StateAfter : PyState :=
  { c6State with
    files := fileWrite c6State.files (mapArtifactName "pmid")
      ((["omid", "pmid"] : Row) :: c6Pairs.map (fun p => [p.1, p.2])) }

/-- A well-formed persisted doi map artifact. -/
def c8GoodState : PyState :=
  { emptyState with
    files := [(mapArtifactName "doi", [["omid", "doi"], ["br/1", "x"]])] }

/-- An empty persisted doi map artifact (unreadable header). -/
def c8EmptyState : PyState :=
  { emptyState with files := [(mapArtifactName "doi", [])] }

/-- A persisted doi map artifact with a one-column row. -/
def c8BadState : PyState :=
  { emptyState with
    files := [(mapArtifactName "doi", [["omid", "doi"], ["onlyone"]])] }

/-- A warm pmid cache binding `"5" -> "7"`. -/
def c9State : PyState := { emptyState with pmidMemo := some [("5", "7")] }

theorem fileRead_fileWrite (fs : List (String × List Row)) (n : String)
    (rows : List Row) : fileRead (fileWrite fs n rows) n = some rows := by
  simp [fileRead, fileWrite, List.lookup]

theorem filterMap_map_rowPair (l : List (String × String)) :
    (l.map (fun p => ([p.1, p.2] : Row))).filterMap rowPair = l := by
  induction l with
  | nil => rfl
  | cons h t ih => simp [rowPair, ih]

theorem rowsPairs_map (l : List (String × String)) :
    rowsPairs (l.map (fun p => ([p.1, p.2] : Row))) = some l := by
  induction l with
  | nil => rfl
  | cons h t ih => simp [rowsPairs, rowPair, ih]

theorem getOmidToExternal_load (vocab : String) (s : PyState) (rows : List Row)
    (hf : fileRead s.files (mapArtifactName vocab) = some rows) :
    getOmidToExternal vocab false s = loadOmidMap rows s := by
  rw [getOmidToExternal, hf]
  rfl

theorem getOmidToExternal_build (vocab : String) (s : PyState)
    (hf : fileRead s.files (mapArtifactName vocab) = none) :
    getOmidToExternal vocab false s = buildOmidMap vocab s := by
  rw [getOmidToExternal, hf]

theorem getExternalCitations_read (vocab : String) (s : PyState) (rows : List Row)
    (hf : fileRead s.files (citArtifactName vocab) = some rows) :
    getExternalCitations vocab false s = (.ok (rows.filterMap rowPair), s) := by
  rw [getExternalCitations, hf]
  rfl

theorem getExternalCitations_build (vocab : String) (s : PyState)
    (hf : fileRead s.files (citArtifactName vocab) = none) :
    getExternalCitations vocab false s = buildExternalCitations vocab false s := by
  rw [getExternalCitations, hf]

theorem iterOmidCitations_read (s : PyState) (rows : List Row)
    (hf : fileRead s.files "omid_citations.tsv.gz" = some rows) :
    iterOmidCitations false s = (rows.filterMap rowPair, s) := by
  rw [iterOmidCitations, hf]
  rfl

theorem iterOmidCitations_build (s : PyState)
    (hf : fileRead s.files "omid_citations.tsv.gz" = none) :
    iterOmidCitations false s
      = (s.rawCitations.map nativeEdgeOfRow,
         { s with files := (fileWrite s.files "omid_citations.tsv.gz"
            ((s.rawCitations.map nativeEdgeOfRow).map (fun p => [p.1, p.2]))) }) := by
  rw [iterOmidCitations, hf]

theorem dictGet_mem {m : Dict} {k v : String} (h : dictGet m k = some v) :
    (k, v) ∈ m := by
  induction m with
  | nil => simp [dictGet] at h
  | cons a t ih =>
    rw [dictGet] at h
    rcases ht : dictGet t k with _ | w
    · rw [ht] at h
      by_cases hak : a.1 = k
      · rw [if_pos hak] at h
        have : (k, v) = a := by
          rcases a with ⟨a1, a2⟩
          injection h with h2
          simp_all
        simp [this]
      · rw [if_neg hak] at h
        exact absurd h (by simp)
    · rw [ht] at h
      injection h with h2
      exact List.mem_cons_of_mem a (ih (h2 ▸ ht))

theorem getLast?_cons_some {α : Type} (c : α) (cs : List α) :
    ∃ x, (c :: cs).getLast? = some x := by
  induction cs generalizing c with
  | nil => exact ⟨c, rfl⟩
  | cons d ds ih =>
    obtain ⟨x, hx⟩ := ih d
    exact ⟨x, by rw [List.getLast?_cons_cons]; exact hx⟩

theorem dictGet_eq_filter_getLast (m : Dict) (k : String) :
    dictGet m k = ((m.filter (fun p => p.1 == k)).getLast?).map (fun p => p.2) := by
  induction m with
  | nil => rfl
  | cons a t ih =>
    have hcons : dictGet (a :: t) k =
        (match dictGet t k with
          | some v => some v
          | none => if a.1 = k then some a.2 else none) := rfl
    rw [hcons]
    by_cases hak : a.1 = k
    · rw [List.filter_cons_of_pos (by simpa using hak)]
      rcases hft : t.filter (fun p => p.1 == k) with _ | ⟨c, cs⟩
      · have hdt : dictGet t k = none := by rw [ih, hft]; rfl
        rw [hdt, if_pos hak, hft]
        simp
      · obtain ⟨x, hx⟩ := getLast?_cons_some c cs
        have hdt : dictGet t k = some x.2 := by rw [ih, hft, hx]; rfl
        rw [hdt, hft, List.getLast?_cons_cons, hx]
        rfl
    · rw [List.filter_cons_of_neg (by simpa using hak), ← ih]
      rcases hdt : dictGet t k with _ | w
      · rw [if_neg hak]
      · rfl

theorem translateRow_eq_spec {m : Dict} (hm : ∀ p ∈ m, p.2 ≠ "") (c : String) :
    translateRow m c =
      (match dictGet m (nativeEdgeOfRow c).1, dictGet m (nativeEdgeOfRow c).2 with
      | some x, some y => some (x, y)
      | _, _ => none) := by
  rw [translateRow, nativeEdgeOfRow]
  rcases h1 : dictGet m ("br/" ++ (parseOciRow c).1) with _ | src
  · rfl
  · rcases h2 : dictGet m ("br/" ++ (parseOciRow c).2) with _ | tgt
    · rfl
    · have hsrc : src ≠ "" := hm _ (dictGet_mem h1)
      have htgt : tgt ≠ "" := hm _ (dictGet_mem h2)
      simp [hsrc, htgt]

theorem filterMap_translateRow_eq_spec {m : Dict} (hm : ∀ p ∈ m, p.2 ≠ "")
    (rows : List String) :
    rows.filterMap (translateRow m)
      = specTranslatedEdges m (rows.map nativeEdgeOfRow) := by
  induction rows with
  | nil => rfl
  | cons c t ih =>
    rw [specTranslatedEdges] at ih ⊢
    simp only [List.map_cons, List.filterMap_cons, ih, translateRow_eq_spec hm c]

/-- Claim C1: a query with vocabulary `doi` should be answered from the DOI
index, never from the OMID index.  In `db.py` it is not: `get_outgoing_citations`
and `get_incoming_citations` dispatch the `"doi"` arm to `_get_omid_cache()`,
so with different omid and doi indexes on disk the doi query returns the OMID
index's answer; moreover `db._get_doi_cache` gates on the OMID location's
existence and builds from the OMID edge stream.  The sibling `cache.py`
implementation resolves `doi` to the DOI cache as the claim states. -/
theorem C1_db_doi_answered_from_omid_index :
    (dbGetOutgoingCitations ⟨"doi", "x"⟩ c1State).1 = .ok ["OM1"]
    ∧ (dbGetOutgoingCitations ⟨"doi", "x"⟩ c1State).1
        = .ok (outEdges [("x", "OM1")] "x")
    ∧ (dbGetOutgoingCitations ⟨"doi", "x"⟩ c1State).1
        ≠ .ok (outEdges [("x", "D1")] "x")
    ∧ (dbGetIncomingCitations ⟨"doi", "OM1"⟩ c1State).1 = .ok ["x"]
    ∧ (getOutgoingCitations ⟨"doi", "x"⟩ .str c1State).1 = .ok (.strs ["D1"])
    ∧ (dbGetDoiCache c1BuildState).1 = .ok [("br/1", "br/2")]
    ∧ (dbGetDoiCache c1BuildState).1 = .ok (iterOmidCitations false c1BuildState).1
    ∧ (dbGetDoiCache c1GateState).1 = .error .missingIndex := by
  decide

/-- Claim C2: `get_omid_to_doi` should return the native-to-DOI map built by
scanning for `doi` tokens.  It does not: the source passes `"pmid"` to
`_get_omid_to_external`, so on a bundle carrying both a doi and a pmid the
returned map binds the native identifier to the pmid value, the persisted
artifact is the pmid one, and the result differs from the DOI scan
(`iter_omid_to_doi`) of the same bundles. -/
theorem C2_get_omid_to_doi_is_pmid_map :
    (getOmidToDoi false c2State).1 = .ok [("br/1", "999")]
    ∧ iterOmidToDoi c2State.metadataBundles = [("br/1", "10.1/x")]
    ∧ fileRead (getOmidToDoi false c2State).2.files (mapArtifactName "pmid")
        = some [["omid", "pmid"], ["br/1", "999"]]
    ∧ (getOmidToDoi false c2State).1 ≠ .ok [("br/1", "10.1/x")]
    ∧ getOmidToDoi false c2State = getOmidToPubmed false c2State := by
  decide

/-- Claim C4: the edge extractor should strip exactly the optional literal
prefix `oci:` and preserve LEFT intact even when it begins with `o`, `c`, `i`
or `:`.  It does not: `lstrip("oci:")` removes every leading character in the
set `{o, c, i, :}`, so the row `oci:c1-2` yields the edge
`(br/1, br/2)` instead of `(br/c1, br/2)`. -/
theorem C4_lstrip_strips_char_set :
    pyLstrip "oci:c1-2" ociLstripChars = "1-2"
    ∧ nativeEdgeOfRow "oci:c1-2" = ("br/1", "br/2")
    ∧ nativeEdgeOfRow "oci:c1-2" ≠ ("br/c1", "br/2")
    ∧ (iterOmidCitations false c4State).1 = [("br/1", "br/2")] := by
  decide

/-- Claim C9 (counterexample): the claim says `Reference("pubmed", i)` and
`Reference("pmid", i)` give the same result.  They do not: `"pmid"` is not in
`CITATION_PREFIXES`, so `handle_input` rejects it with `ValueError`, while
the same query with `"pubmed"` succeeds against the pmid cache. -/
theorem C9_counterexample :
    getOutgoingCitations ⟨"pmid", "5"⟩ .str c9State
      = (.error (.invalidVocab "pmid"), c9State)
    ∧ getOutgoingCitations ⟨"pubmed", "5"⟩ .str c9State
      = (.ok (.strs ["7"]), c9State)
    ∧ getOutgoingCitations ⟨"pmid", "5"⟩ .str c9State
      ≠ getOutgoingCitations ⟨"pubmed", "5"⟩ .str c9State := by
  decide

/-- Claim C10: with `return_type="citation"`, both public cache queries raise
`NotImplementedError` unconditionally, before input validation and before any
cache dispatch, and the state is unchanged — for every input reference,
including invalid ones, and every state. -/
theorem C10_citation_return_type_errors_first (r : Reference) (s : PyState) :
    getOutgoingCitations r .citation s = (.error .citationNotImplemented, s)
    ∧ getIncomingCitations r .citation s = (.error .citationNotImplemented, s) :=
  ⟨rfl, rfl⟩

/-- Claim C7: a vocabulary outside the supported set fails with the explicit
unsupported-vocabulary error (`ValueError` in `handle_input`; the spec's
`UnsupportedVocabularyError`) at the API boundary, leaving the state
unchanged — never a silent empty result. -/
theorem C7_unsupported_vocabulary_fails (p i : String) (rt : ReturnType)
    (s : PyState) (hp : p ∉ CITATION_PREFIXES) (hrt : rt ≠ .citation) :
    getOutgoingCitations ⟨p, i⟩ rt s = (.error (.invalidVocab p), s)
    ∧ getIncomingCitations ⟨p, i⟩ rt s = (.error (.invalidVocab p), s) := by
  constructor
  · rw [getOutgoingCitations, if_neg hrt, handleInput]
    rw [if_neg hp]
  · rw [getIncomingCitations, if_neg hrt, handleInput]
    rw [if_neg hp]

/-- Witness for C7 at the concrete vocabulary `wikidata`. -/
theorem C7_witness :
    getOutgoingCitations ⟨"wikidata", "Q1"⟩ .str emptyState
      = (.error (.invalidVocab "wikidata"), emptyState)
    ∧ getIncomingCitations ⟨"wikidata", "Q1"⟩ .str emptyState
      = (.error (.invalidVocab "wikidata"), emptyState) :=
  C7_unsupported_vocabulary_fails "wikidata" "Q1" .str emptyState
    (by decide) (by decide)

/-- Claim C8: when a persisted identifier-map artifact exists and
`force_rebuild` is false, the translator loads and returns it directly (and
does not touch the state); an empty file or a row that is not a two-column
pair fails with the corrupt-artifact error. -/
theorem C8_map_load_and_corrupt (vocab : String) (s : PyState) :
    (∀ hdr rest m, fileRead s.files (mapArtifactName vocab) = some (hdr :: rest) →
        rowsPairs rest = some m →
        getOmidToExternal vocab false s = (.ok m, s))
    ∧ (fileRead s.files (mapArtifactName vocab) = some [] →
        getOmidToExternal vocab false s = (.error .emptyArtifact, s))
    ∧ (∀ hdr rest, fileRead s.files (mapArtifactName vocab) = some (hdr :: rest) →
        rowsPairs rest = none →
        getOmidToExternal vocab false s = (.error .malformedRow, s)) := by
  refine ⟨?_, ?_, ?_⟩
  · intro hdr rest m hf hm
    rw [getOmidToExternal, hf]
    show loadOmidMap (hdr :: rest) s = _
    rw [loadOmidMap, hm]
  · intro hf
    rw [getOmidToExternal, hf]
    rfl
  · intro hdr rest hf hm
    rw [getOmidToExternal, hf]
    show loadOmidMap (hdr :: rest) s = _
    rw [loadOmidMap, hm]

/-- Witness for C8: a well-formed artifact loads; an empty artifact and a
one-column row each fail with the corrupt-artifact error. -/
theorem C8_witness :
    getOmidToExternal "doi" false c8GoodState = (.ok [("br/1", "x")], c8GoodState)
    ∧ getOmidToExternal "doi" false c8EmptyState
      = (.error .emptyArtifact, c8EmptyState)
    ∧ getOmidToExternal "doi" false c8BadState
      = (.error .malformedRow, c8BadState) :=
  ⟨(C8_map_load_and_corrupt "doi" c8GoodState).1 ["omid", "doi"] [["br/1", "x"]]
      [("br/1", "x")] (by decide) (by decide),
   (C8_map_load_and_corrupt "doi" c8EmptyState).2.1 (by decide),
   (C8_map_load_and_corrupt "doi" c8BadState).2.2 ["omid", "doi"] [["onlyone"]]
      (by decide) (by decide)⟩

/-- Claim C6: during a fresh build, the in-memory identifier map binds each
native identifier to the external identifier of the last matching pair in
scan order (last-write-wins), and re-loading the persisted artifact on a
later run returns the very same map. -/
theorem C6_identifier_map_last_write_wins (vocab : String) (s : PyState)
    (pairs : List (String × String)) (rows : List Row) (s₂ : PyState)
    (hfresh : fileRead s.files (mapArtifactName vocab) = none)
    (hpairs : pairs = iterOmidToExternalIdentifier vocab s.metadataBundles)
    (hrows : rows = (["omid", vocab] : Row) :: pairs.map (fun p => [p.1, p.2]))
    (hs₂ : s₂ = { s with files := fileWrite s.files (mapArtifactName vocab) rows }) :
    getOmidToExternal vocab false s = (.ok pairs, s₂)
    ∧ (∀ n, dictGet pairs n
        = ((pairs.filter (fun p => p.1 == n)).getLast?).map (fun p => p.2))
    ∧ getOmidToExternal vocab false s₂ = (.ok pairs, s₂) := by
  subst hs₂
  subst hrows
  subst hpairs
  refine ⟨?_, fun n => dictGet_eq_filter_getLast _ n, ?_⟩
  · rw [getOmidToExternal_build vocab s hfresh]
    rfl
  · rw [getOmidToExternal_load vocab _ _
      (fileRead_fileWrite s.files (mapArtifactName vocab) _)]
    rw [loadOmidMap, rowsPairs_map]

/-- Witness for C6: the native identifier `br/1` occurs in two bundles with
pmid values `11` then `22`; the built map and the re-loaded map both bind it
to `22`, the value from the last bundle in scan order. -/
theorem C6_witness :
    getOmidToExternal "pmid" false c6State = (.ok c6Pairs, c6StateAfter)
    ∧ dictGet c6Pairs "br/1" = some "22"
    ∧ c6Pairs = [("br/1", "11"), ("br/1", "22"), ("br/2", "33")]
    ∧ getOmidToExternal "pmid" false c6StateAfter = (.ok c6Pairs, c6StateAfter) := by
  have h := C6_identifier_map_last_write_wins "pmid" c6State c6Pairs
    ((["omid", "pmid"] : Row) :: c6Pairs.map (fun p => [p.1, p.2])) c6StateAfter
    (by decide) (by decide) (by decide) (by decide)
  exact ⟨h.1, by decide, by decide, h.2.2⟩

/-- Claim C3 (counterexample): as stated, the claim fails when the map binds
an endpoint to the empty string.  `br/1` and `br/2` are both in the map's
domain, so the claim's comprehension contains `("", "y")`, but the extractor's
truthiness test (`if source_external_id and target_external_id`) drops the
edge, yielding an empty artifact. -/
theorem C3_counterexample :
    (getExternalCitations "doi" false c3CexState).1 = .ok []
    ∧ dictGet [("br/1", ""), ("br/2", "y")] "br/1" = some ""
    ∧ dictGet [("br/1", ""), ("br/2", "y")] "br/2" = some "y"
    ∧ specTranslatedEdges [("br/1", ""), ("br/2", "y")]
        (c3CexState.rawCitations.map nativeEdgeOfRow) = [("", "y")]
    ∧ (Except.ok ([] : List (String × String)) : Except PyErr _)
        ≠ .ok [("", "y")] := by
  decide

/-- Claim C3 (amended): for a map whose external values are all nonempty —
as every map the Identifier Translator produces is — the translated edge
stream and the persisted artifact equal exactly the spec's comprehension
`{(M[a], M[b]) : (a,b) in E, a in S, b in S}` over the native edges, in
order; an edge with an unmapped endpoint is absent from both. -/
theorem C3_translated_stream_drop_correct (vocab : String) (m : Dict)
    (s : PyState) (hm : ∀ p ∈ m, p.2 ≠ "")
    (hmap : fileRead s.files (mapArtifactName vocab)
      = some ((["omid", vocab] : Row) :: m.map (fun p => [p.1, p.2])))
    (hout : fileRead s.files (citArtifactName vocab) = none) :
    getExternalCitations vocab false s
      = (.ok (specTranslatedEdges m (s.rawCitations.map nativeEdgeOfRow)),
         { s with files := (fileWrite s.files (citArtifactName vocab)
            ((specTranslatedEdges m (s.rawCitations.map nativeEdgeOfRow)).map
              (fun p => [p.1, p.2]))) }) := by
  have hmapload : getOmidToExternal vocab false s = (.ok m, s) := by
    rw [getOmidToExternal_load vocab s _ hmap, loadOmidMap, rowsPairs_map]
  have htr : s.rawCitations.filterMap (translateRow m)
      = specTranslatedEdges m (s.rawCitations.map nativeEdgeOfRow) :=
    filterMap_translateRow_eq_spec hm _
  rw [getExternalCitations_build vocab s hout, buildExternalCitations, hmapload]
  show ((Except.ok (s.rawCitations.filterMap (translateRow m)) : Except PyErr _),
      ({ s with files := (fileWrite s.files (citArtifactName vocab)
        ((s.rawCitations.filterMap (translateRow m)).map
          (fun p => [p.1, p.2]))) } : PyState)) = _
  rw [htr]

/-- Witness for C3 (amended): a doi map covering `br/1` and `br/2`; the row
`1-3` has an unmapped endpoint and is dropped, the other two rows are
translated in order. -/
theorem C3_witness :
    getExternalCitations "doi" false c3WitState
      = (.ok (specTranslatedEdges c3WitMap
          (c3WitState.rawCitations.map nativeEdgeOfRow)),
         { c3WitState with files := (fileWrite c3WitState.files
            (citArtifactName "doi")
            ((specTranslatedEdges c3WitMap
              (c3WitState.rawCitations.map nativeEdgeOfRow)).map
              (fun p => [p.1, p.2]))) }) :=
  C3_translated_stream_drop_correct "doi" c3WitMap c3WitState
    (by decide) (by decide) (by decide)

/-- Claim C5: for every vocabulary, re-invoking the extractor after a first
invocation returned an edge sequence (computing and persisting it, or reading
an existing artifact back) yields the same sequence element for element, in
the same order, and leaves the state unchanged — for the translated streams
(`_get_external_citations`) and for the native stream
(`iter_omid_citations`) alike. -/
theorem C5_replay_equals_first_emission (vocab : String) (s s₂ : PyState)
    (E : List (String × String)) :
    (getExternalCitations vocab false s = (.ok E, s₂) →
      getExternalCitations vocab false s₂ = (.ok E, s₂))
    ∧ (iterOmidCitations false s = (E, s₂) →
      iterOmidCitations false s₂ = (E, s₂)) := by
  constructor
  · intro h
    rcases hf : fileRead s.files (citArtifactName vocab) with _ | rows
    · rw [getExternalCitations_build vocab s hf, buildExternalCitations] at h
      rcases hg : getOmidToExternal vocab false s with ⟨res, s₁⟩
      rw [hg] at h
      cases res with
      | error e => simp at h
      | ok m =>
        have h2 : ((Except.ok (s₁.rawCitations.filterMap (translateRow m)) :
              Except PyErr _),
            ({ s₁ with files := (fileWrite s₁.files (citArtifactName vocab)
              ((s₁.rawCitations.filterMap (translateRow m)).map
                (fun p => [p.1, p.2]))) } : PyState))
            = (.ok E, s₂) := h
        have hE : s₁.rawCitations.filterMap (translateRow m) = E := by
          have := congrArg Prod.fst h2
          simpa using this
        have hs : ({ s₁ with files := (fileWrite s₁.files (citArtifactName vocab)
            ((s₁.rawCitations.filterMap (translateRow m)).map
              (fun p => [p.1, p.2]))) } : PyState) = s₂ := by
          have := congrArg Prod.snd h2
          simpa using this
        rw [← hs]
        rw [getExternalCitations_read vocab _ _
          (fileRead_fileWrite s₁.files (citArtifactName vocab) _)]
        rw [filterMap_map_rowPair, hE]
    · rw [getExternalCitations_read vocab s rows hf] at h
      have hE : rows.filterMap rowPair = E := by
        have := congrArg Prod.fst h
        simpa using this
      have hs : s = s₂ := by
        have := congrArg Prod.snd h
        simpa using this
      rw [← hs]
      rw [getExternalCitations_read vocab s rows hf, hE]
  · intro h
    rcases hf : fileRead s.files "omid_citations.tsv.gz" with _ | rows
    · rw [iterOmidCitations_build s hf] at h
      have hE : s.rawCitations.map nativeEdgeOfRow = E := by
        have := congrArg Prod.fst h
        simpa using this
      have hs : ({ s with files := (fileWrite s.files "omid_citations.tsv.gz"
          ((s.rawCitations.map nativeEdgeOfRow).map (fun p => [p.1, p.2]))) } :
            PyState) = s₂ := by
        have := congrArg Prod.snd h
        simpa using this
      rw [← hs]
      rw [iterOmidCitations_read _ _
        (fileRead_fileWrite s.files "omid_citations.tsv.gz" _)]
      rw [filterMap_map_rowPair, hE]
    · rw [iterOmidCitations_read s rows hf] at h
      have hE : rows.filterMap rowPair = E := by
        have := congrArg Prod.fst h
        simpa using this
      have hs : s = s₂ := by
        have := congrArg Prod.snd h
        simpa using this
      rw [← hs]
      rw [iterOmidCitations_read s rows hf, hE]

/-- Witness for C5: a first pass over two raw rows with a doi map, and a
first native pass, each replayed from the persisted artifact. -/
theorem C5_witness :
    getExternalCitations "doi" false c5StateAfter
      = (.ok [("x", "y"), ("y", "x")], c5StateAfter)
    ∧ iterOmidCitations false c5StateAfterOmid
      = ([("br/1", "br/2"), ("br/2", "br/1")], c5StateAfterOmid) :=
  ⟨(C5_replay_equals_first_emission "doi" c5State c5StateAfter
      [("x", "y"), ("y", "x")]).1 (by decide),
   (C5_replay_equals_first_emission "omid" c5State c5StateAfterOmid
      [("br/1", "br/2"), ("br/2", "br/1")]).2 (by decide)⟩

/-- Claim C9 (amended): the public cache queries canonicalize the input
prefix `pubmed` to the internal `pmid`: a `pubmed` query is answered from the
pmid cache and, with `return_type="reference"`, every returned reference
carries prefix `pmid`.  A direct `pmid` input, however, is rejected by
`handle_input` with `ValueError`, since the accepted input prefixes are
exactly `doi`, `pubmed` and `omid`. -/
theorem C9_pubmed_is_internal_pmid (i : String) (rt : ReturnType) (s : PyState) :
    handleInput ⟨"pubmed", i⟩ = .ok ⟨"pmid", i⟩
    ∧ getOutgoingCitations ⟨"pmid", i⟩ rt s
        = (.error (if rt = .citation then PyErr.citationNotImplemented
            else PyErr.invalidVocab "pmid"), s)
    ∧ getIncomingCitations ⟨"pmid", i⟩ rt s
        = (.error (if rt = .citation then PyErr.citationNotImplemented
            else PyErr.invalidVocab "pmid"), s)
    ∧ (getOutgoingCitations ⟨"pubmed", i⟩ .reference s).1
        = (getPubmedCache s).1.map
            (fun c => .refs ((outEdges c i).map (fun x => ⟨"pmid", x⟩)))
    ∧ (getOutgoingCitations ⟨"pubmed", i⟩ .str s).1
        = (getPubmedCache s).1.map (fun c => .strs (outEdges c i))
    ∧ (getIncomingCitations ⟨"pubmed", i⟩ .str s).1
        = (getPubmedCache s).1.map (fun c => .strs (inEdges c i)) := by
  have hpm : ("pmid" : String) ∉ CITATION_PREFIXES := by decide
  refine ⟨rfl, ?_, ?_, ?_, ?_, ?_⟩
  · by_cases hrt : rt = .citation
    · subst hrt
      rfl
    · rw [if_neg hrt, getOutgoingCitations, if_neg hrt, handleInput, if_neg hpm]
  · by_cases hrt : rt = .citation
    · subst hrt
      rfl
    · rw [if_neg hrt, getIncomingCitations, if_neg hrt, handleInput, if_neg hpm]
  · rw [getOutgoingCitations]
    show (match getPubmedCache s with
      | (.error e, s₁) => ((.error e : Except PyErr CiteResult), s₁)
      | (.ok c, s₁) =>
        (.ok (.refs ((outEdges c i).map (fun x => (⟨"pmid", x⟩ : Reference)))),
          s₁)).1 = _
    rcases hc : getPubmedCache s with ⟨res, s₁⟩
    cases res with
    | error e => rfl
    | ok c => rfl
  · rw [getOutgoingCitations]
    show (match getPubmedCache s with
      | (.error e, s₁) => ((.error e : Except PyErr CiteResult), s₁)
      | (.ok c, s₁) => (.ok (.strs (outEdges c i)), s₁)).1 = _
    rcases hc : getPubmedCache s with ⟨res, s₁⟩
    cases res with
    | error e => rfl
    | ok c => rfl
  · rw [getIncomingCitations]
    show (match getPubmedCache s with
      | (.error e, s₁) => ((.error e : Except PyErr CiteResult), s₁)
      | (.ok c, s₁) => (.ok (.strs (inEdges c i)), s₁)).1 = _
    rcases hc : getPubmedCache s with ⟨res, s₁⟩
    cases res with
    | error e => rfl
    | ok c => rfl

end OC
